import Mathlib

/-!
# InfraKit — verification of the onboarding orchestration engine

Shallow embedding of the InfraKit repository (melhemrahmeh/infrakit):
- `src/cli/redis_manager.py` — Lock & Cache client (Redis wrapper),
- `src/cli/main.py` — the onboarding orchestrator (`onboard`, `status`, `sync`),
- `src/cli/db-manager.py` and `src/cli.py` (`store_application`) — Record Store writes,
- `src/cli/argocd-manager.py` and `src/cli.py` (`create_argocd_application`) —
  Delivery Controller manifests.

Time is modelled as a natural number of seconds; the Redis store is a list of
entries (key, value, absolute expiry time).  External collaborators (the Go
manifest service, PostgreSQL, the ArgoCD API) are modelled by an environment
that fixes the outcome of each call for a given run, so theorems quantify over
every possible behaviour of the collaborators.
-/

namespace InfraKit

/-- An application state snapshot, the dict passed to
`cache_application_state` in the Python code.  The fields are exactly the keys
that appear in the dict literals of `src/cli/main.py` (`status`, `cluster`,
`last_operation`, `error`, `last_sync`); a missing key is `none`.
`json.dumps` is injective on these dicts, so we store the structure itself. -/
structure Snapshot where
  status : String
  cluster : Option String
  last_operation : Option String
  error : Option String
  last_sync : Option String
deriving Repr, DecidableEq

/-- A value stored in Redis: the literal string `"1"` written by
`acquire_lock`, or the JSON-serialised snapshot written by
`cache_application_state`. -/
inductive RVal where
  | lockV : RVal
  | stateV : Snapshot → RVal
deriving Repr, DecidableEq

/-- One Redis entry: key, value, and the absolute time at which it expires
(a key set with TTL `t` at time `now` carries `expiresAt = now + t`, and is
visible exactly while the current time is `< expiresAt`). -/
structure REntry where
  key : String
  val : RVal
  expiresAt : Nat
deriving Repr, DecidableEq

/-- The Redis store. -/
structure RedisState where
  entries : List REntry
deriving Repr, DecidableEq

def emptyRedis : RedisState := ⟨[]⟩

/-- Redis `GET k` at time `now`: the first entry for `k`, provided it has not
expired. -/
def redisGet (s : RedisState) (now : Nat) (k : String) : Option RVal :=
  match s.entries.find? (fun e => e.key == k) with
  | some e => if now < e.expiresAt then some e.val else none
  | none => none

/-- Redis `SETEX k ttl v` at time `now`: overwrite `k` with `v`, expiring at
`now + ttl`. -/
def redisSetex (s : RedisState) (now : Nat) (k : String) (v : RVal)
    (ttl : Nat) : RedisState :=
  ⟨⟨k, v, now + ttl⟩ :: s.entries.filter (fun e => e.key ≠ k)⟩

/-- Redis `SET k v NX EX ttl` at time `now`: set only if `k` is absent (or
expired); returns the new store and whether the set happened. -/
def redisSetNxEx (s : RedisState) (now : Nat) (k : String) (v : RVal)
    (ttl : Nat) : RedisState × Bool :=
  match redisGet s now k with
  | some _ => (s, false)
  | none => (redisSetex s now k v ttl, true)

/-- Redis `DEL k`. -/
def redisDelete (s : RedisState) (k : String) : RedisState :=
  ⟨s.entries.filter (fun e => e.key ≠ k)⟩

/-- The key used by `acquire_lock` / `release_lock`
(`src/cli/redis_manager.py`): `f"lock:\x7block_name\x7d"`. -/
def lockKey (lock_name : String) : String := "lock:" ++ lock_name

/-- The key used by `cache_application_state` / `get_cached_state`
(`src/cli/redis_manager.py`): `f"app:\x7bapp_name\x7d:state"`. -/
def stateKey (app_name : String) : String := "app:" ++ app_name ++ ":state"

/-- Default `ttl` of `RedisManager.acquire_lock` (`ttl: int = 30`). -/
def acquireLockDefaultTTL : Nat := 30

/-- Default `ttl` of `RedisManager.cache_application_state`
(`ttl: int = 3600`). -/
def cacheStateDefaultTTL : Nat := 3600

/-- `RedisManager.acquire_lock(lock_name, ttl)`: an atomic SET NX EX on
`lock:<lock_name>`, returning `true` iff the set happened. -/
def acquire_lock (s : RedisState) (now : Nat) (lock_name : String)
    (ttl : Nat) : RedisState × Bool :=
  redisSetNxEx s now (lockKey lock_name) RVal.lockV ttl

/-- `RedisManager.release_lock(lock_name)`: unconditional delete of
`lock:<lock_name>`. -/
def release_lock (s : RedisState) (lock_name : String) : RedisState :=
  redisDelete s (lockKey lock_name)

/-- `RedisManager.cache_application_state(app_name, state, ttl)`: SETEX on
`app:<app_name>:state`. -/
def cache_application_state (s : RedisState) (now : Nat) (app_name : String)
    (snap : Snapshot) (ttl : Nat) : RedisState :=
  redisSetex s now (stateKey app_name) (RVal.stateV snap) ttl

/-- `RedisManager.get_cached_state(app_name)`: GET on `app:<app_name>:state`,
deserialising the snapshot when present. -/
def get_cached_state (s : RedisState) (now : Nat) (app_name : String) :
    Option Snapshot :=
  match redisGet s now (stateKey app_name) with
  | some (RVal.stateV snap) => some snap
  | some RVal.lockV => none
  | none => none

/-! ## The onboarding orchestrator (`src/cli/main.py`) -/

/-- The parsed CLI arguments consumed by `InfraKitCLI.onboard`
(`--name --cluster --namespace --chart --repo --path --revision
--values --kubeconfig`). -/
structure Args where
  name : String
  cluster : String
  namespace_ : String
  chart : String
  repo : String
  path : String
  revision : String
  values : Option String
  kubeconfig : Option String
deriving Repr, DecidableEq

/-- The JSON object returned by the `validate-k8s` Go-service call:
`valid` is the truthiness of `validation.get('valid')`, `error` is
`validation.get('error')` (absent key gives `none`). -/
structure GoValidation where
  valid : Bool
  error : Option String
deriving Repr, DecidableEq

/-- Python `f"...\x7bx\x7d"` rendering of an `Optional` value:
`None` renders as the string `"None"`. -/
def pyOptStr (o : Option String) : String :=
  match o with
  | some s => s
  | none => "None"

/-- Outcomes of the external collaborators for one run: what each call would
return or raise (the raised exception is carried as its `str(e)` message).
Quantifying theorems over `Env` covers every behaviour of the Go service, the
database driver and the ArgoCD client — including the `TypeError`s that the
mismatched call signatures in this repository actually produce. -/
structure Env where
  helmResult : Except String String
  validateResult : Except String GoValidation
  dbResult : Except String Unit
  argocdResult : Except String Unit
deriving Repr

/-- Which external calls a run performed: Go-service commands issued, Record
Store write attempts, Delivery Controller registration attempts. -/
structure Trace where
  goCalls : List String
  dbCalls : Nat
  argocdCalls : Nat
deriving Repr, DecidableEq

def emptyTrace : Trace := ⟨[], 0, 0⟩

/-- How a call to `onboard` terminated: early `return` on lock contention,
normal completion, or a propagated exception with message `msg`. -/
inductive Outcome where
  | lockBusy : Outcome
  | ok : Outcome
  | raised : String → Outcome
deriving Repr, DecidableEq

/-- Result of one `onboard` run: final Redis store, external-call trace, and
termination outcome. -/
structure OnboardRun where
  redis : RedisState
  trace : Trace
  outcome : Outcome
deriving Repr, DecidableEq

/-- TTL of the onboarding lock: `onboard` calls `acquire_lock(lock_key)` with
no `ttl` argument, so the `acquire_lock` default of 30 applies. -/
def onboardLockTTL : Nat := acquireLockDefaultTTL

/-- TTL of the sync lock: `sync` calls `acquire_lock(f"sync:\x7bname\x7d", ttl=60)`. -/
def syncLockTTL : Nat := 60

/-- The snapshot `\x7b"status": "active", "cluster": ..., "last_operation":
"onboard"\x7d` cached on onboarding success. -/
def activeSnap (cluster : String) : Snapshot :=
  ⟨"active", some cluster, some "onboard", none, none⟩

/-- The snapshot `\x7b"status": "failed", "error": str(e)\x7d` cached by the
`except` block of `onboard`. -/
def failedSnap (e : String) : Snapshot :=
  ⟨"failed", none, none, some e, none⟩

/-- The snapshot `\x7b"status": "syncing", "last_sync": "pending"\x7d` cached by
`sync`. -/
def syncingSnap : Snapshot :=
  ⟨"syncing", none, none, none, some "pending"⟩

/-- The `except` + `finally` tail of `onboard` when exception `e` escaped the
`try` body: cache a `failed` snapshot for the application, release the
onboarding lock, re-raise. -/
def onboardFail (r : RedisState) (now : Nat) (name : String) (t : Trace)
    (e : String) : OnboardRun :=
  let r1 := cache_application_state r now name (failedSnap e) cacheStateDefaultTTL
  let r2 := release_lock r1 ("onboard:" ++ name)
  ⟨r2, t, Outcome.raised e⟩

/-- `InfraKitCLI.onboard(args)` (`src/cli/main.py`, lines 63–125): acquire the
onboarding lock (early `return` if held); then generate Helm templates,
validate the manifests (raising `ValueError` on `valid: false`), store the
record, register with ArgoCD, and cache an `active` snapshot; any exception is
cached as a `failed` snapshot and re-raised; the lock is released in
`finally` on every path past acquisition. -/
def onboard (env : Env) (r0 : RedisState) (now : Nat) (a : Args) :
    OnboardRun :=
  let acq := acquire_lock r0 now ("onboard:" ++ a.name) onboardLockTTL
  if acq.2 = false then ⟨acq.1, emptyTrace, Outcome.lockBusy⟩
  else
    let t1 : Trace := ⟨["generate-helm"], 0, 0⟩
    match env.helmResult with
    | Except.error e => onboardFail acq.1 now a.name t1 e
    | Except.ok _manifest =>
      let t2 : Trace := ⟨["generate-helm", "validate-k8s"], 0, 0⟩
      match env.validateResult with
      | Except.error e => onboardFail acq.1 now a.name t2 e
      | Except.ok v =>
        if v.valid = false then
          onboardFail acq.1 now a.name t2
            ("Manifest validation failed: " ++ pyOptStr v.error)
        else
          let t3 : Trace := ⟨["generate-helm", "validate-k8s"], 1, 0⟩
          match env.dbResult with
          | Except.error e => onboardFail acq.1 now a.name t3 e
          | Except.ok _ =>
            let t4 : Trace := ⟨["generate-helm", "validate-k8s"], 1, 1⟩
            match env.argocdResult with
            | Except.error e => onboardFail acq.1 now a.name t4 e
            | Except.ok _ =>
              let r1 := cache_application_state acq.1 now a.name
                (activeSnap a.cluster) cacheStateDefaultTTL
              let r2 := release_lock r1 ("onboard:" ++ a.name)
              ⟨r2, t4, Outcome.ok⟩

/-- Result of one `sync` run. -/
structure SyncRun where
  redis : RedisState
  outcome : Outcome
deriving Repr, DecidableEq

/-- `InfraKitCLI.sync(name)` (`src/cli/main.py`, lines 136–149): acquire the
sync lock with `ttl=60` (raising `RuntimeError` if held — modelled as
`lockBusy`); trigger the ArgoCD sync, cache a `syncing` snapshot; the lock is
released in `finally` on every path past acquisition. -/
def sync (syncResult : Except String Unit) (r0 : RedisState) (now : Nat)
    (name : String) : SyncRun :=
  let acq := acquire_lock r0 now ("sync:" ++ name) syncLockTTL
  if acq.2 = false then ⟨acq.1, Outcome.lockBusy⟩
  else
    match syncResult with
    | Except.error e =>
      ⟨release_lock acq.1 ("sync:" ++ name), Outcome.raised e⟩
    | Except.ok _ =>
      let r1 := cache_application_state acq.1 now name syncingSnap
        cacheStateDefaultTTL
      ⟨release_lock r1 ("sync:" ++ name), Outcome.ok⟩

/-! ## Record Store writes: the two drafts

`src/cli.py` (`store_application`) issues
`INSERT ... ON CONFLICT (name) DO UPDATE ... updated_at = NOW()`;
`src/cli/db-manager.py` (`DBManager.create_application`) issues a plain
`INSERT INTO applications (name, cluster, helm_chart) VALUES ...`.
Tables are modelled as row lists; per the schema implied by
`ON CONFLICT (name)`, `name` carries a unique constraint, so a plain insert
of an existing name raises a uniqueness error. -/

/-- A row of the `applications` table with the columns written by
`store_application` (`src/cli.py`). -/
structure AppRecord where
  name : String
  cluster : String
  namespace_ : String
  helm_chart : String
  git_repo : String
  git_revision : String
  git_path : String
  updated_at : Nat
deriving Repr, DecidableEq

/-- `store_application` (`src/cli.py`, lines 95–113):
`INSERT ... ON CONFLICT (name) DO UPDATE SET ... updated_at = NOW()` —
an upsert keyed by `name`.  On conflict every mutable column and
`updated_at` are overwritten; on fresh insert the row is added (its
`updated_at` being the server clock `now`). -/
def store_application (table : List AppRecord) (now : Nat)
    (name cluster namespace_ chart repo revision path : String) :
    List AppRecord :=
  if table.any (fun r => r.name == name) then
    table.map (fun r =>
      if r.name == name then
        ⟨name, cluster, namespace_, chart, repo, revision, path, now⟩
      else r)
  else
    table ++ [⟨name, cluster, namespace_, chart, repo, revision, path, now⟩]

/-- A row of the `applications` table with the columns written by
`DBManager.create_application` (`src/cli/db-manager.py`). -/
structure DbRow where
  name : String
  cluster : String
  helm_chart : String
deriving Repr, DecidableEq

/-- `DBManager.create_application` (`src/cli/db-manager.py`, lines 8–14):
a plain `INSERT INTO applications (name, cluster, helm_chart) VALUES ...`
with no `ON CONFLICT` clause; under the unique constraint on `name`,
inserting an existing name raises a uniqueness violation. -/
def create_application (table : List DbRow)
    (name cluster chart : String) : Except String (List DbRow) :=
  if table.any (fun r => r.name == name) then
    Except.error
      "UniqueViolation: duplicate key value violates unique constraint on applications.name"
  else
    Except.ok (table ++ [⟨name, cluster, chart⟩])

/-- `status` (`src/cli/main.py`, line 134) falls back to
`self.db.get_application(name)`, but class `DBManager`
(`src/cli/db-manager.py`) defines only `__init__` and `create_application`;
in Python the attribute lookup on the missing method raises
`AttributeError` before any query runs, modelled as this error. -/
def db_get_application (_table : List DbRow) (_name : String) :
    Except String (Option DbRow) :=
  Except.error "AttributeError: DBManager object has no attribute get_application"

/-- What a `status` call returns when it does not raise: the live cached
snapshot, or the record-store fallback value. -/
inductive StatusValue where
  | fromCache : Snapshot → StatusValue
  | fromDb : Option DbRow → StatusValue
deriving Repr, DecidableEq

/-- `InfraKitCLI.status(name)` (`src/cli/main.py`, lines 127–134): return the
cached snapshot if one is live, else fall back to
`self.db.get_application(name)`. -/
def status (r : RedisState) (now : Nat) (table : List DbRow)
    (name : String) : Except String StatusValue :=
  match get_cached_state r now name with
  | some snap => Except.ok (StatusValue.fromCache snap)
  | none => (db_get_application table name).map StatusValue.fromDb

/-! ## Delivery Controller manifests: the two drafts -/

/-- `spec.source` of an ArgoCD application manifest. -/
structure GitSource where
  repoURL : String
  targetRevision : String
  path : String
deriving Repr, DecidableEq

/-- `spec.destination` of an ArgoCD application manifest. -/
structure Destination where
  server : String
  namespace_ : String
deriving Repr, DecidableEq

/-- `spec.syncPolicy.automated` of an ArgoCD application manifest. -/
structure SyncAutomated where
  prune : Bool
  selfHeal : Bool
deriving Repr, DecidableEq

/-- `spec` of an ArgoCD application manifest; keys absent from the JSON
object are `none`. -/
structure AppSpec where
  project : Option String
  source : Option GitSource
  destination : Destination
  syncPolicy : Option SyncAutomated
deriving Repr, DecidableEq

/-- The ArgoCD application manifest POSTed to
`/api/v1/applications`. -/
structure AppManifest where
  apiVersion : String
  kind : String
  metadataName : String
  metadataNamespace : Option String
  spec : AppSpec
deriving Repr, DecidableEq

/-- The `app_manifest` dict built by `create_argocd_application`
(`src/cli.py`, lines 117–142): full git source, destination namespace, and
`syncPolicy.automated` with `prune` and `selfHeal` both `True`.
`argocdNamespace` is `config["argocd"]["namespace"]`. -/
def create_argocd_application_manifest (argocdNamespace name repo revision
    path namespace_ : String) : AppManifest :=
  { apiVersion := "argoproj.io/v1alpha1"
    kind := "Application"
    metadataName := name
    metadataNamespace := some argocdNamespace
    spec :=
      { project := some "default"
        source := some ⟨repo, revision, path⟩
        destination := ⟨"https://kubernetes.default.svc", namespace_⟩
        syncPolicy := some ⟨true, true⟩ } }

/-- The `app_manifest` dict built by `ArgoCDManager.create_application`
(`src/cli/argocd-manager.py`, lines 9–20): only `metadata.name` and
`spec.destination`; the JSON object carries no `spec.source` and no
`spec.syncPolicy` key. -/
def argocd_manager_create_application_manifest (name cluster : String) :
    AppManifest :=
  { apiVersion := "argoproj.io/v1alpha1"
    kind := "Application"
    metadataName := name
    metadataNamespace := none
    spec :=
      { project := none
        source := none
        destination := ⟨"https://" ++ cluster ++ ".example.com", "default"⟩
        syncPolicy := none } }

/-! ## Basic lemmas about the Redis model -/

theorem find?_filter_ne (l : List REntry) (k k' : String) (h : k' ≠ k) :
    (l.filter (fun e => e.key ≠ k)).find? (fun e => e.key == k') =
      l.find? (fun e => e.key == k') := by
  induction l with
  | nil => rfl
  | cons e es ih =>
    rw [List.filter_cons]
    by_cases hk : e.key = k
    · rw [if_neg (by simp [hk])]
      rw [List.find?_cons_of_neg _ (by simp [hk, Ne.symm h])]
      exact ih
    · rw [if_pos (by simp [hk])]
      simp only [List.find?_cons]
      cases hq : (e.key == k') with
      | true => rfl
      | false => exact ih

theorem find?_filter_self (l : List REntry) (k : String) :
    (l.filter (fun e => e.key ≠ k)).find? (fun e => e.key == k) = none := by
  induction l with
  | nil => rfl
  | cons e es ih =>
    rw [List.filter_cons]
    by_cases hk : e.key = k
    · rw [if_neg (by simp [hk])]
      exact ih
    · rw [if_pos (by simp [hk])]
      rw [List.find?_cons_of_neg _ (by simp [hk])]
      exact ih

theorem redisGet_setex_same (s : RedisState) (now t ttl : Nat) (k : String)
    (v : RVal) :
    redisGet (redisSetex s now k v ttl) t k =
      if t < now + ttl then some v else none := by
  unfold redisGet redisSetex
  rw [List.find?_cons_of_pos _ (by simp)]

theorem redisGet_setex_other (s : RedisState) (now t ttl : Nat)
    (k k' : String) (v : RVal) (h : k' ≠ k) :
    redisGet (redisSetex s now k v ttl) t k' = redisGet s t k' := by
  unfold redisGet redisSetex
  rw [List.find?_cons_of_neg _ (by simp [Ne.symm h])]
  rw [find?_filter_ne s.entries k k' h]

theorem redisGet_delete_self (s : RedisState) (t : Nat) (k : String) :
    redisGet (redisDelete s k) t k = none := by
  unfold redisGet redisDelete
  rw [find?_filter_self s.entries k]

theorem redisGet_delete_other (s : RedisState) (t : Nat) (k k' : String)
    (h : k' ≠ k) :
    redisGet (redisDelete s k) t k' = redisGet s t k' := by
  unfold redisGet redisDelete
  rw [find?_filter_ne s.entries k k' h]

theorem lockKey_ne_stateKey (l n : String) : lockKey l ≠ stateKey n := by
  intro h
  have h2 := congrArg String.data h
  simp only [lockKey, stateKey, String.data_append, List.cons_append] at h2
  injection h2 with h3 _
  exact absurd h3 (by decide)

/-! ## Claim theorems -/

/-- C5: `acquire_lock(key, ttl)` is an atomic set-if-absent with expiry that
returns `true` iff the call newly acquired the lock: for every key, the call
returns `true` exactly when no unexpired lock entry exists; a second acquire
issued while the lock is held and unexpired returns `false`; and an acquire
issued after the TTL has elapsed, with no release in between, returns
`true`. -/
theorem C5_acquire_lock_set_if_absent
    (r0 : RedisState) (now t1 t2 ttl ttl1 ttl2 : Nat) (k : String)
    (hacq : (acquire_lock r0 now k ttl).2 = true)
    (h1a : now ≤ t1) (h1b : t1 < now + ttl) (h2 : now + ttl ≤ t2) :
    (∀ (s : RedisState) (t ttl3 : Nat),
        (acquire_lock s t k ttl3).2 = true ↔ redisGet s t (lockKey k) = none)
    ∧ (acquire_lock (acquire_lock r0 now k ttl).1 t1 k ttl1).2 = false
    ∧ (acquire_lock (acquire_lock r0 now k ttl).1 t2 k ttl2).2 = true := by
  have hiff : ∀ (s : RedisState) (t ttl3 : Nat),
      (acquire_lock s t k ttl3).2 = true ↔ redisGet s t (lockKey k) = none := by
    intro s t ttl3
    unfold acquire_lock redisSetNxEx
    cases hg : redisGet s t (lockKey k) <;> simp
  have hnone : redisGet r0 now (lockKey k) = none := (hiff r0 now ttl).mp hacq
  have hfst : (acquire_lock r0 now k ttl).1 =
      redisSetex r0 now (lockKey k) RVal.lockV ttl := by
    unfold acquire_lock redisSetNxEx
    rw [hnone]
  refine ⟨hiff, ?_, ?_⟩
  · rw [hfst]
    unfold acquire_lock redisSetNxEx
    rw [redisGet_setex_same, if_pos h1b]
  · rw [hfst]
    unfold acquire_lock redisSetNxEx
    rw [redisGet_setex_same, if_neg (Nat.not_lt.mpr h2)]

/-- Witness for C5 at a concrete input: the lock `"onboard:svc-a"` acquired
at time 0 with TTL 30 cannot be re-acquired at time 10, and can be
re-acquired at time 30 without any release. -/
theorem C5_acquire_lock_set_if_absent_witness :
    (acquire_lock (acquire_lock emptyRedis 0 "onboard:svc-a" 30).1 10
        "onboard:svc-a" 30).2 = false
    ∧ (acquire_lock (acquire_lock emptyRedis 0 "onboard:svc-a" 30).1 30
        "onboard:svc-a" 30).2 = true := by
  have h := C5_acquire_lock_set_if_absent emptyRedis 0 10 30 30 30 30
    "onboard:svc-a" (by decide) (by decide) (by decide) (by decide)
  exact ⟨h.2.1, h.2.2⟩

/-- C10: lock entries and state snapshots occupy disjoint Redis key
namespaces: a `lock:<lock_name>` key never equals an `app:<name>:state` key;
consequently lock acquisition and release leave every application's cached
snapshot untouched, and a state write leaves every lock entry untouched. -/
theorem C10_lock_state_namespaces_disjoint :
    (∀ (l n : String), lockKey l ≠ stateKey n)
    ∧ (∀ (s : RedisState) (now t ttl : Nat) (l n : String),
        get_cached_state (acquire_lock s now l ttl).1 t n =
          get_cached_state s t n)
    ∧ (∀ (s : RedisState) (t : Nat) (l n : String),
        get_cached_state (release_lock s l) t n = get_cached_state s t n)
    ∧ (∀ (s : RedisState) (now t ttl : Nat) (n l : String) (snap : Snapshot),
        redisGet (cache_application_state s now n snap ttl) t (lockKey l) =
          redisGet s t (lockKey l)) := by
  refine ⟨lockKey_ne_stateKey, ?_, ?_, ?_⟩
  · intro s now t ttl l n
    have hne : stateKey n ≠ lockKey l :=
      fun hc => lockKey_ne_stateKey l n hc.symm
    unfold acquire_lock redisSetNxEx
    cases hg : redisGet s now (lockKey l)
    · unfold get_cached_state
      rw [redisGet_setex_other s now t ttl (lockKey l) (stateKey n)
        RVal.lockV hne]
    · rfl
  · intro s t l n
    have hne : stateKey n ≠ lockKey l :=
      fun hc => lockKey_ne_stateKey l n hc.symm
    unfold get_cached_state release_lock
    rw [redisGet_delete_other s t (lockKey l) (stateKey n) hne]
  · intro s now t ttl n l snap
    unfold cache_application_state
    rw [redisGet_setex_other s now t ttl (stateKey n) (lockKey l)
      (RVal.stateV snap) (lockKey_ne_stateKey l n)]

/-! ## Lemmas about the onboarding saga -/

theorem get_cached_state_onboardFail (r : RedisState) (now : Nat)
    (name : String) (t : Trace) (e : String) :
    get_cached_state (onboardFail r now name t e).redis now name =
      some (failedSnap e) := by
  unfold onboardFail release_lock cache_application_state get_cached_state
  rw [redisGet_delete_other _ _ _ _
    (fun hc => lockKey_ne_stateKey ("onboard:" ++ name) name hc.symm)]
  rw [redisGet_setex_same, if_pos (Nat.lt_add_of_pos_right (by decide))]

theorem onboardFail_spec (r : RedisState) (now : Nat) (name : String)
    (t : Trace) (e : String) :
    (onboardFail r now name t e).outcome = Outcome.raised e
    ∧ get_cached_state (onboardFail r now name t e).redis now name =
        some (failedSnap e) :=
  ⟨rfl, get_cached_state_onboardFail r now name t e⟩

theorem all_ne_delete (s : RedisState) (k : String) :
    (redisDelete s k).entries.all (fun e => e.key ≠ k) = true := by
  unfold redisDelete
  rw [List.all_eq_true]
  intro e he
  exact (List.mem_filter.mp he).2

/-- Every run of `onboard` that gets past lock acquisition ends with
`release_lock` on the onboarding lock key (the `finally` block). -/
theorem onboard_releases (env : Env) (r0 : RedisState) (now : Nat) (a : Args)
    (h : (onboard env r0 now a).outcome ≠ Outcome.lockBusy) :
    ∃ r', (onboard env r0 now a).redis =
      release_lock r' ("onboard:" ++ a.name) := by
  cases hb : (acquire_lock r0 now ("onboard:" ++ a.name) onboardLockTTL).2
  · exact absurd (by simp [onboard, hb]) h
  · obtain ⟨hr, vr, dr, ar⟩ := env
    cases hr with
    | error e =>
      exact ⟨cache_application_state
        (acquire_lock r0 now ("onboard:" ++ a.name) onboardLockTTL).1 now
        a.name (failedSnap e) cacheStateDefaultTTL,
        by simp [onboard, hb, onboardFail]⟩
    | ok m =>
      cases vr with
      | error e =>
        exact ⟨cache_application_state
          (acquire_lock r0 now ("onboard:" ++ a.name) onboardLockTTL).1 now
          a.name (failedSnap e) cacheStateDefaultTTL,
          by simp [onboard, hb, onboardFail]⟩
      | ok v =>
        cases hv : v.valid
        · exact ⟨cache_application_state
            (acquire_lock r0 now ("onboard:" ++ a.name) onboardLockTTL).1 now
            a.name (failedSnap ("Manifest validation failed: " ++
              pyOptStr v.error)) cacheStateDefaultTTL,
            by simp [onboard, hb, hv, onboardFail]⟩
        · cases dr with
          | error e =>
            exact ⟨cache_application_state
              (acquire_lock r0 now ("onboard:" ++ a.name) onboardLockTTL).1
              now a.name (failedSnap e) cacheStateDefaultTTL,
              by simp [onboard, hb, hv, onboardFail]⟩
          | ok u =>
            cases ar with
            | error e =>
              exact ⟨cache_application_state
                (acquire_lock r0 now ("onboard:" ++ a.name) onboardLockTTL).1
                now a.name (failedSnap e) cacheStateDefaultTTL,
                by simp [onboard, hb, hv, onboardFail]⟩
            | ok u2 =>
              exact ⟨cache_application_state
                (acquire_lock r0 now ("onboard:" ++ a.name) onboardLockTTL).1
                now a.name (activeSnap a.cluster) cacheStateDefaultTTL,
                by simp [onboard, hb, hv]⟩

/-- Every run of `sync` that gets past lock acquisition ends with
`release_lock` on the sync lock key (the `finally` block). -/
theorem sync_releases (sr : Except String Unit) (r0 : RedisState)
    (now : Nat) (n : String)
    (h : (sync sr r0 now n).outcome ≠ Outcome.lockBusy) :
    ∃ r', (sync sr r0 now n).redis = release_lock r' ("sync:" ++ n) := by
  cases hb : (acquire_lock r0 now ("sync:" ++ n) syncLockTTL).2
  · exact absurd (by simp [sync, hb]) h
  · cases sr with
    | error e =>
      exact ⟨(acquire_lock r0 now ("sync:" ++ n) syncLockTTL).1,
        by simp [sync, hb]⟩
    | ok u =>
      exact ⟨cache_application_state
        (acquire_lock r0 now ("sync:" ++ n) syncLockTTL).1 now n syncingSnap
        cacheStateDefaultTTL, by simp [sync, hb]⟩

/-- C1: when the manifest validator returns `valid = false`, the onboarding
saga aborts before any Record Store write and before any Delivery Controller
registration, re-raising the application-level `ValueError`; afterwards the
Cache holds a `failed` snapshot whose error text ends with the validator's
error message (the text is `"Manifest validation failed: "` followed by that
message, not a system-fault message). -/
theorem C1_invalid_manifest_aborts_before_writes
    (env : Env) (r0 : RedisState) (now : Nat) (a : Args)
    (m : String) (v : GoValidation)
    (hlock : (acquire_lock r0 now ("onboard:" ++ a.name) onboardLockTTL).2
      = true)
    (hhelm : env.helmResult = Except.ok m)
    (hval : env.validateResult = Except.ok v)
    (hinvalid : v.valid = false) :
    (onboard env r0 now a).trace.dbCalls = 0
    ∧ (onboard env r0 now a).trace.argocdCalls = 0
    ∧ (onboard env r0 now a).outcome =
        Outcome.raised ("Manifest validation failed: " ++ pyOptStr v.error)
    ∧ get_cached_state (onboard env r0 now a).redis now a.name =
        some (failedSnap ("Manifest validation failed: " ++ pyOptStr v.error))
    ∧ (∃ p : String,
        "Manifest validation failed: " ++ pyOptStr v.error =
          p ++ pyOptStr v.error) := by
  have hrun : onboard env r0 now a =
      onboardFail (acquire_lock r0 now ("onboard:" ++ a.name)
          onboardLockTTL).1 now a.name ⟨["generate-helm", "validate-k8s"], 0, 0⟩
        ("Manifest validation failed: " ++ pyOptStr v.error) := by
    simp [onboard, hlock, hhelm, hval, hinvalid]
  rw [hrun]
  exact ⟨rfl, rfl, rfl, get_cached_state_onboardFail _ _ _ _ _,
    ⟨"Manifest validation failed: ", rfl⟩⟩

/-- Sample CLI arguments used by the concrete witnesses. -/
def sampleArgs : Args :=
  ⟨"svc-a", "prod", "default", "charts/svc", "https://example.com/infra.git",
    "apps/svc-a", "main", none, none⟩

/-- An environment in which validation returns
`\x7bvalid: false, error: "bad values"\x7d` and everything else succeeds. -/
def invalidEnv : Env :=
  ⟨Except.ok "rendered", Except.ok ⟨false, some "bad values"⟩,
    Except.ok Unit.unit, Except.ok Unit.unit⟩

/-- Witness for C1 at a concrete input. -/
theorem C1_invalid_manifest_aborts_before_writes_witness :
    (onboard invalidEnv emptyRedis 0 sampleArgs).trace.dbCalls = 0
    ∧ (onboard invalidEnv emptyRedis 0 sampleArgs).trace.argocdCalls = 0
    ∧ (onboard invalidEnv emptyRedis 0 sampleArgs).outcome =
        Outcome.raised "Manifest validation failed: bad values"
    ∧ get_cached_state (onboard invalidEnv emptyRedis 0 sampleArgs).redis 0
        "svc-a" = some (failedSnap "Manifest validation failed: bad values")
    ∧ (∃ p : String,
        "Manifest validation failed: bad values" = p ++ "bad values") :=
  C1_invalid_manifest_aborts_before_writes invalidEnv emptyRedis 0 sampleArgs
    "rendered" ⟨false, some "bad values"⟩ (by decide) rfl rfl rfl

/-- The run fails at one of saga steps 2–5 with error message `e`: manifest
generation raised, validation raised, validation returned `valid: false`
(the `ValueError` message), the record write raised, or the controller
registration raised. -/
def stepFailure (env : Env) (e : String) : Prop :=
  env.helmResult = Except.error e
  ∨ (∃ m, env.helmResult = Except.ok m ∧ env.validateResult = Except.error e)
  ∨ (∃ m v, env.helmResult = Except.ok m ∧ env.validateResult = Except.ok v
      ∧ v.valid = false
      ∧ e = "Manifest validation failed: " ++ pyOptStr v.error)
  ∨ (∃ m v, env.helmResult = Except.ok m ∧ env.validateResult = Except.ok v
      ∧ v.valid = true ∧ env.dbResult = Except.error e)
  ∨ (∃ m v u, env.helmResult = Except.ok m ∧ env.validateResult = Except.ok v
      ∧ v.valid = true ∧ env.dbResult = Except.ok u
      ∧ env.argocdResult = Except.error e)

/-- C2: whenever onboarding fails at any of saga steps 2–5 (manifest
generation, validation, record upsert, controller registration) with error
message `e`, the orchestrator writes a `failed` snapshot carrying `e` to the
Cache and propagates the failure (with that same message) to the caller. -/
theorem C2_failure_cached_then_raised
    (env : Env) (r0 : RedisState) (now : Nat) (a : Args) (e : String)
    (hlock : (acquire_lock r0 now ("onboard:" ++ a.name) onboardLockTTL).2
      = true)
    (hfail : stepFailure env e) :
    get_cached_state (onboard env r0 now a).redis now a.name =
      some (failedSnap e)
    ∧ (onboard env r0 now a).outcome = Outcome.raised e := by
  rcases hfail with h | ⟨m, hm, h⟩ | ⟨m, v, hm, hv, hval, he⟩ |
    ⟨m, v, hm, hv, hval, h⟩ | ⟨m, v, u, hm, hv, hval, hd, h⟩
  · have hrun : onboard env r0 now a =
        onboardFail (acquire_lock r0 now ("onboard:" ++ a.name)
            onboardLockTTL).1 now a.name ⟨["generate-helm"], 0, 0⟩ e := by
      simp [onboard, hlock, h]
    rw [hrun]
    exact ⟨get_cached_state_onboardFail _ _ _ _ _, rfl⟩
  · have hrun : onboard env r0 now a =
        onboardFail (acquire_lock r0 now ("onboard:" ++ a.name)
            onboardLockTTL).1 now a.name
          ⟨["generate-helm", "validate-k8s"], 0, 0⟩ e := by
      simp [onboard, hlock, hm, h]
    rw [hrun]
    exact ⟨get_cached_state_onboardFail _ _ _ _ _, rfl⟩
  · subst he
    have hrun : onboard env r0 now a =
        onboardFail (acquire_lock r0 now ("onboard:" ++ a.name)
            onboardLockTTL).1 now a.name
          ⟨["generate-helm", "validate-k8s"], 0, 0⟩
          ("Manifest validation failed: " ++ pyOptStr v.error) := by
      simp [onboard, hlock, hm, hv, hval]
    rw [hrun]
    exact ⟨get_cached_state_onboardFail _ _ _ _ _, rfl⟩
  · have hrun : onboard env r0 now a =
        onboardFail (acquire_lock r0 now ("onboard:" ++ a.name)
            onboardLockTTL).1 now a.name
          ⟨["generate-helm", "validate-k8s"], 1, 0⟩ e := by
      simp [onboard, hlock, hm, hv, hval, h]
    rw [hrun]
    exact ⟨get_cached_state_onboardFail _ _ _ _ _, rfl⟩
  · have hrun : onboard env r0 now a =
        onboardFail (acquire_lock r0 now ("onboard:" ++ a.name)
            onboardLockTTL).1 now a.name
          ⟨["generate-helm", "validate-k8s"], 1, 1⟩ e := by
      simp [onboard, hlock, hm, hv, hval, hd, h]
    rw [hrun]
    exact ⟨get_cached_state_onboardFail _ _ _ _ _, rfl⟩

/-- An environment in which Helm manifest generation raises with message
`"boom"` and everything downstream would succeed. -/
def helmFailEnv : Env :=
  ⟨Except.error "boom", Except.ok ⟨true, none⟩, Except.ok Unit.unit,
    Except.ok Unit.unit⟩

/-- Witness for C2 at a concrete input. -/
theorem C2_failure_cached_then_raised_witness :
    get_cached_state (onboard helmFailEnv emptyRedis 0 sampleArgs).redis 0
      "svc-a" = some (failedSnap "boom")
    ∧ (onboard helmFailEnv emptyRedis 0 sampleArgs).outcome =
        Outcome.raised "boom" :=
  C2_failure_cached_then_raised helmFailEnv emptyRedis 0 sampleArgs "boom"
    (by decide) (Or.inl rfl)

/-- C3: on every exit path of `onboard` on which the onboarding lock was
acquired (normal success, validation failure, or any system fault from a
saga step — i.e. every outcome other than the lock-contention early return),
the final Redis store holds no entry under that name's onboarding lock key;
likewise every `sync` call that acquired the sync lock leaves no entry under
its sync lock key. -/
theorem C3_lock_released_on_every_exit
    (env : Env) (sr : Except String Unit) (r0 r1 : RedisState)
    (now now1 : Nat) (a : Args) (n : String)
    (h1 : (onboard env r0 now a).outcome ≠ Outcome.lockBusy)
    (h2 : (sync sr r1 now1 n).outcome ≠ Outcome.lockBusy) :
    (onboard env r0 now a).redis.entries.all
        (fun e => e.key ≠ lockKey ("onboard:" ++ a.name)) = true
    ∧ (sync sr r1 now1 n).redis.entries.all
        (fun e => e.key ≠ lockKey ("sync:" ++ n)) = true := by
  obtain ⟨ro, ho⟩ := onboard_releases env r0 now a h1
  obtain ⟨rs, hs⟩ := sync_releases sr r1 now1 n h2
  rw [ho, hs]
  exact ⟨all_ne_delete ro (lockKey ("onboard:" ++ a.name)),
    all_ne_delete rs (lockKey ("sync:" ++ n))⟩

/-- Witness for C3 at concrete inputs: a validation-failure onboarding run
and a successful sync run both leave no lock entry behind. -/
theorem C3_lock_released_on_every_exit_witness :
    (onboard invalidEnv emptyRedis 0 sampleArgs).redis.entries.all
        (fun e => e.key ≠ lockKey ("onboard:" ++ sampleArgs.name)) = true
    ∧ (sync (Except.ok Unit.unit) emptyRedis 0 "svc-a").redis.entries.all
        (fun e => e.key ≠ lockKey ("sync:" ++ "svc-a")) = true :=
  C3_lock_released_on_every_exit invalidEnv (Except.ok Unit.unit) emptyRedis
    emptyRedis 0 0 sampleArgs "svc-a" (by decide) (by decide)

/-- C4: an `onboard` invocation whose lock acquisition fails because the
onboarding lock for that name is already held terminates immediately with
the "operation in progress" early return, leaving the Redis store untouched
(so no cached-state write) and performing no Go-service call, no Record
Store write and no Delivery Controller call. -/
theorem C4_lock_contention_no_effects
    (env : Env) (r0 : RedisState) (now : Nat) (a : Args)
    (hheld : (acquire_lock r0 now ("onboard:" ++ a.name) onboardLockTTL).2
      = false) :
    onboard env r0 now a =
      ⟨r0, emptyTrace, Outcome.lockBusy⟩ := by
  have hacq : acquire_lock r0 now ("onboard:" ++ a.name) onboardLockTTL =
      (r0, false) := by
    unfold acquire_lock redisSetNxEx at hheld ⊢
    cases hg : redisGet r0 now (lockKey ("onboard:" ++ a.name)) with
    | none => rw [hg] at hheld; simp at hheld
    | some w => rfl
  simp [onboard, hacq, emptyTrace]

/-- A Redis store in which the onboarding lock for `svc-a` is already
held. -/
def lockedRedis : RedisState :=
  (acquire_lock emptyRedis 0 "onboard:svc-a" 30).1

/-- Witness for C4 at a concrete input. -/
theorem C4_lock_contention_no_effects_witness :
    onboard invalidEnv lockedRedis 0 sampleArgs =
      ⟨lockedRedis, emptyTrace, Outcome.lockBusy⟩ :=
  C4_lock_contention_no_effects invalidEnv lockedRedis 0 sampleArgs
    (by decide)

/-- C6 (code bug): the Record Store write reached from `onboard`
(`DBManager.create_application`, `src/cli/db-manager.py`) is a plain INSERT,
not an upsert — onboarding the same `name` a second time with a different
`cluster` raises a uniqueness violation instead of leaving one refreshed
row; the `store_application` draft in `src/cli.py` shows the intended
behaviour: one row for the name with the latest values and refreshed
`updated_at`. -/
theorem C6_record_write_insert_not_upsert :
    create_application [⟨"svc-a", "prod", "charts/svc"⟩] "svc-a" "staging"
        "charts/svc" =
      Except.error
        "UniqueViolation: duplicate key value violates unique constraint on applications.name"
    ∧ store_application
        (store_application [] 0 "svc-a" "prod" "default" "charts/svc"
          "https://example.com/infra.git" "main" "apps/svc-a") 5
        "svc-a" "staging" "default" "charts/svc"
        "https://example.com/infra.git" "main" "apps/svc-a" =
      [⟨"svc-a", "staging", "default", "charts/svc",
        "https://example.com/infra.git", "main", "apps/svc-a", 5⟩] :=
  ⟨rfl, rfl⟩

/-- C7 (code bug): a `status` call with no cached snapshot falls back to
`self.db.get_application`, but class `DBManager` defines no such method, so
the call raises `AttributeError` — it returns neither the durable record nor
an explicit "unknown application" result. -/
theorem C7_status_fallback_raises_attribute_error :
    status emptyRedis 0 [] "ghost" =
      Except.error
        "AttributeError: DBManager object has no attribute get_application" :=
  rfl

/-- C8 counterexample: the TTL used when acquiring the sync lock (60, passed
explicitly by `sync`) is NOT strictly shorter than the TTL used when
acquiring the onboarding lock (`onboard` passes none, so the `acquire_lock`
default of 30 applies). -/
theorem C8_counterexample_sync_ttl_not_shorter :
    syncLockTTL = 60 ∧ onboardLockTTL = 30 ∧
      ¬ syncLockTTL < onboardLockTTL :=
  ⟨rfl, rfl, by decide⟩

/-- C8 (amended): the TTL used when acquiring the sync lock for a name (60)
is strictly LONGER than the TTL used when acquiring the onboarding lock for
that name (the `acquire_lock` default of 30). -/
theorem C8_sync_ttl_strictly_longer : onboardLockTTL < syncLockTTL := by
  decide

/-- C9 (code bug): the application manifest that
`ArgoCDManager.create_application` (`src/cli/argocd-manager.py`) posts
during registration carries no `spec.source` and no `spec.syncPolicy` key
at all, so it encodes neither the git source nor an automated
prune/selfHeal policy; the `create_argocd_application` draft in
`src/cli.py` builds the full manifest the claim describes. -/
theorem C9_manifest_missing_source_and_policy :
    (argocd_manager_create_application_manifest "svc-a" "prod").spec.source
        = none
    ∧ (argocd_manager_create_application_manifest "svc-a"
        "prod").spec.syncPolicy = none
    ∧ (create_argocd_application_manifest "argocd" "svc-a"
        "https://example.com/infra.git" "main" "apps/svc-a"
        "default").spec =
      { project := some "default"
        source := some ⟨"https://example.com/infra.git", "main", "apps/svc-a"⟩
        destination := ⟨"https://kubernetes.default.svc", "default"⟩
        syncPolicy := some ⟨true, true⟩ } :=
  ⟨rfl, rfl, rfl⟩

end InfraKit
